import Mathlib

/-!
Shallow embedding of the `ns-cordova-plugin-audio` repository:
the browser (direct-backed) adapter `src/www/browser/NSmedia.js` and the
bridge-backed adapter `src/unnamed/part_000`.

JavaScript values that flow through the status dispatcher are modelled by
`JSValue` (numbers as exact rationals, strings, booleans, `undefined`, `NaN`,
and `{ code: n }` media-error objects).  Sessions are stored in an id-keyed
registry modelled as an association list; callbacks are modelled by their
presence flags, and a callback invocation is recorded as an `Event` in an
output trace.  JavaScript exceptions are modelled with `Except`: a function
that can propagate a thrown fault to its caller returns
`Except JSValue (Registry × List Event)`.

In the source, `this` and `mediaObjects[this.id]` are the same object
(aliased): the constructor inserts `this` under its fresh id and nothing ever
removes registry entries, so a method acting on `this` is modelled as a
function of the registry and the session's id.
-/

namespace NSM

/-- JavaScript values relevant to the plugin: numbers (exact rationals),
strings, booleans, `undefined`, `NaN`, and media-error objects `{ code: n }`. -/
inductive JSValue where
  | num (q : ℚ)
  | str (s : String)
  | bool (b : Bool)
  | undef
  | nan
  | obj (code : ℤ)
deriving DecidableEq, Repr

/-- Whitespace as trimmed by JavaScript `ToNumber` on strings: the
`WhiteSpace` and `LineTerminator` productions (tab through carriage
return, space, NBSP, the Unicode space separators, line/paragraph
separators, and the BOM). -/
def isJsWhitespace (c : Char) : Bool :=
  (0x09 ≤ c.toNat ∧ c.toNat ≤ 0x0D) ∨ c.toNat = 0x20 ∨ c.toNat = 0xA0 ∨
  c.toNat = 0x1680 ∨ (0x2000 ≤ c.toNat ∧ c.toNat ≤ 0x200A) ∨
  c.toNat = 0x2028 ∨ c.toNat = 0x2029 ∨ c.toNat = 0x202F ∨
  c.toNat = 0x205F ∨ c.toNat = 0x3000 ∨ c.toNat = 0xFEFF

/-- Strip leading and trailing JavaScript whitespace. -/
def trimJsWhitespace (cs : List Char) : List Char :=
  ((cs.dropWhile isJsWhitespace).reverse.dropWhile isJsWhitespace).reverse

/-- Parse a list of decimal digit characters; the empty list parses to 0
(callers that require at least one digit guard emptiness themselves, as in
JavaScript where `Number("5.") === 5` but `Number(".") is NaN`). -/
def parseDigits (cs : List Char) : Option ℕ :=
  cs.foldlM (fun acc c => if c.isDigit then some (acc * 10 + (c.toNat - 48)) else none) 0

/-- Parse a nonempty list of decimal digit characters. -/
def parseDigitsNE (cs : List Char) : Option ℕ :=
  if cs.isEmpty then none else parseDigits cs

/-- Value of a hexadecimal digit character. -/
def hexVal (c : Char) : Option ℕ :=
  if c.isDigit then some (c.toNat - 48)
  else if 'a' ≤ c ∧ c ≤ 'f' then some (c.toNat - 87)
  else if 'A' ≤ c ∧ c ≤ 'F' then some (c.toNat - 55)
  else none

/-- Parse a nonempty digit string in the given radix (used for the
`0x`/`0o`/`0b` integer literal forms of `ToNumber`). -/
def parseRadixDigits (radix : ℕ) (cs : List Char) : Option ℕ :=
  if cs.isEmpty then none
  else
    cs.foldlM (fun acc c =>
      match hexVal c with
      | some d => if d < radix then some (acc * radix + d) else none
      | none => none) 0

/-- Parse an unsigned decimal mantissa `digits [. digits] | . digits` into
a rational; at least one digit must be present (`Number(".")` is NaN). -/
def parseUnsignedDec (cs : List Char) : Option ℚ :=
  match cs.span (· ≠ '.') with
  | (intPart, []) =>
    if intPart.isEmpty then none
    else (parseDigits intPart).map (fun n => (n : ℚ))
  | (intPart, _dot :: fracPart) =>
    if intPart.isEmpty ∧ fracPart.isEmpty then none
    else
      match parseDigits intPart, parseDigits fracPart with
      | some i, some f => some ((i : ℚ) + (f : ℚ) / ((10 : ℚ) ^ fracPart.length))
      | _, _ => none

/-- Parse the exponent that follows an `e`/`E`: an optional sign and a
nonempty digit string. -/
def parseExponent (cs : List Char) : Option ℤ :=
  match cs with
  | c :: rest =>
    if c = '+' then (parseDigitsNE rest).map (fun n => (n : ℤ))
    else if c = '-' then (parseDigitsNE rest).map (fun n => -(n : ℤ))
    else (parseDigitsNE (c :: rest)).map (fun n => (n : ℤ))
  | [] => none

/-- Parse an unsigned decimal literal with an optional exponent part
(`12.5`, `4e0`, `5.e2`, `.5e-1`). -/
def parseDecimalLit (cs : List Char) : Option ℚ :=
  match cs.span (fun c => c ≠ 'e' ∧ c ≠ 'E') with
  | (mant, []) => parseUnsignedDec mant
  | (mant, _e :: expPart) =>
    match parseUnsignedDec mant, parseExponent expPart with
    | some m, some ex => some (m * (10 : ℚ) ^ ex)
    | _, _ => none

/-- Parse an unsigned numeric literal.  The string `Infinity` denotes an
infinite value, which lies outside the exact-rational value domain of this
embedding; it is mapped to `none` (NaN), which the dispatcher cannot
distinguish from an infinity: neither compares loosely equal to any finite
number. -/
def parseUnsignedNumeric (cs : List Char) : Option ℚ :=
  if cs = ['I', 'n', 'f', 'i', 'n', 'i', 't', 'y'] then none
  else parseDecimalLit cs

/-- Parse an optionally signed decimal literal (`+4`, `-12.5`, `4e0`). -/
def parseSignedDec (cs : List Char) : Option ℚ :=
  match cs with
  | c :: rest =>
    if c = '+' then parseUnsignedNumeric rest
    else if c = '-' then (parseUnsignedNumeric rest).map (fun q => -q)
    else parseUnsignedNumeric (c :: rest)
  | [] => some 0

/-- Parse a whitespace-trimmed `StringNumericLiteral`: the empty string is
0, `0x`/`0X`, `0o`/`0O`, `0b`/`0B` prefixes introduce unsigned radix
integer literals (which admit no sign), and everything else is a signed
decimal literal. -/
def parseTrimmed (cs : List Char) : Option ℚ :=
  match cs with
  | [] => some 0
  | c0 :: c1 :: rest =>
    if c0 = '0' ∧ (c1 = 'x' ∨ c1 = 'X') then
      (parseRadixDigits 16 rest).map (fun n => (n : ℚ))
    else if c0 = '0' ∧ (c1 = 'o' ∨ c1 = 'O') then
      (parseRadixDigits 8 rest).map (fun n => (n : ℚ))
    else if c0 = '0' ∧ (c1 = 'b' ∨ c1 = 'B') then
      (parseRadixDigits 2 rest).map (fun n => (n : ℚ))
    else parseSignedDec (c0 :: c1 :: rest)
  | [c0] => parseSignedDec [c0]

/-- JavaScript `ToNumber` applied to a string, per the
`StringNumericLiteral` grammar: whitespace is trimmed (whitespace-only
strings give 0), decimal literals admit an optional sign, a fractional
part and an exponent, and `0x`/`0o`/`0b` introduce radix integer literals;
`none` stands for `NaN` (and for the infinities, see
`parseUnsignedNumeric`).  Values are exact rationals rather than IEEE
doubles, so strings distinguishable from an integer only beyond double
precision are idealized as unequal to it. -/
def parseDec (s : String) : Option ℚ :=
  parseTrimmed (trimJsWhitespace s.toList)

/-- JavaScript `Number(value)` coercion over the modelled value domain. -/
def jsToNumber : JSValue → JSValue
  | .num q => .num q
  | .str s => match parseDec s with
    | some q => .num q
    | none => .nan
  | .bool b => .num (if b then 1 else 0)
  | .undef => .nan
  | .nan => .nan
  | .obj _ => .nan

/-- JavaScript strict equality `value === n` against a number literal. -/
def strictEqNum (v : JSValue) (n : ℚ) : Bool :=
  match v with
  | .num q => q = n
  | _ => false

/-- JavaScript loose equality `value == n` against a number literal:
strings are coerced with `ToNumber`, booleans to 0/1, and `undefined`,
`NaN` and plain objects never compare equal to a number. -/
def looseEqNum (v : JSValue) (n : ℚ) : Bool :=
  match v with
  | .num q => q = n
  | .str s => match parseDec s with
    | some q => q = n
    | none => false
  | .bool b => (if b then (1 : ℚ) else 0) = n
  | .undef => false
  | .nan => false
  | .obj _ => false

/-- JavaScript string conversion, used in diagnostic messages. -/
def jsToString : JSValue → String
  | .num q => toString q
  | .str s => s
  | .bool b => if b then "true" else "false"
  | .undef => "undefined"
  | .nan => "NaN"
  | .obj _ => "[object Object]"

-- NSmedia messages (identical constants in both source files)
def MEDIA_STATE : ℚ := 1
def MEDIA_DURATION : ℚ := 2
def MEDIA_POSITION : ℚ := 3
def MEDIA_ERROR : ℚ := 9

-- NSmedia states
def MEDIA_NONE : ℚ := 0
def MEDIA_STARTING : ℚ := 1
def MEDIA_RUNNING : ℚ := 2
def MEDIA_PAUSED : ℚ := 3
def MEDIA_STOPPED : ℚ := 4

/-- Modelled from the spec: the "generic aborted" code of the
`NSmediaError` constants file, which is not under `src/`; the value is the
standard HTML5 `MediaError` code the spec refers to. -/
def MEDIA_ERR_ABORTED : ℤ := 1

/-- Modelled from the spec: the "format/source not supported" code of the
missing `NSmediaError` constants file (standard HTML5 value). -/
def MEDIA_ERR_SRC_NOT_SUPPORTED : ℤ := 4

/-- The backing browser audio primitive (`new Audio()`), with its mutable
fields and, for each operation the adapter invokes on it, a flag saying
whether that primitive operation throws in the current environment. -/
structure AudioNode where
  src : Option String
  currentTime : ℚ
  volume : ℚ
  playThrows : Bool
  pauseThrows : Bool
  setTimeThrows : Bool
  setVolumeThrows : Bool
  readTimeThrows : Bool
deriving DecidableEq, Repr

/-- One media session (`this` in the source): the constructor-set fields,
the cached duration and position, and (browser variant) the backing node.
Callbacks are modelled by presence flags, since the dispatcher only tests
them for truthiness before invoking them. -/
structure MediaSession where
  src : String
  hasSuccessCallback : Bool
  hasErrorCallback : Bool
  hasStatusCallback : Bool
  _duration : JSValue
  _position : JSValue
  node : Option AudioNode
deriving DecidableEq, Repr

/-- Observable effects of a dispatcher or adapter call, in order:
callback invocations and `console.error` diagnostics. -/
inductive Event where
  | statusCb (v : JSValue)
  | successCb
  | errorCb (v : JSValue)
  | posSuccessCb (v : JSValue)
  | failCb (v : JSValue)
  | log (s : String)
deriving DecidableEq, Repr

/-- The module-level `mediaObjects` map, id → session. -/
abbrev Registry := List (String × MediaSession)

/-- Lookup of `mediaObjects[id]`. -/
def lookupReg (r : Registry) (id : String) : Option MediaSession :=
  match r with
  | [] => none
  | (k, m) :: rest => if k = id then some m else lookupReg rest id

/-- Overwrite the session stored under `id` (a no-op if `id` is absent). -/
def updateReg (r : Registry) (id : String) (m : MediaSession) : Registry :=
  match r with
  | [] => []
  | (k, m0) :: rest =>
    if k = id then (k, m) :: updateReg rest id m else (k, m0) :: updateReg rest id m

/-- Insertion `mediaObjects[id] = session`: overwrite if present, append otherwise. -/
def insertReg (r : Registry) (id : String) (m : MediaSession) : Registry :=
  if (lookupReg r id).isSome then updateReg r id m else r ++ [(id, m)]

/-- Status dispatcher `NSmedia.onStatus` of the browser adapter
(`src/www/browser/NSmedia.js`, lines 229-257).  The `switch` matches the
message type with strict equality; the STOPPED comparison uses `===`. -/
def onStatus_browser (r : Registry) (id : String) (msgType value : JSValue) :
    Registry × List Event :=
  match lookupReg r id with
  | some media =>
    if strictEqNum msgType MEDIA_STATE then
      (r, (if media.hasStatusCallback then [Event.statusCb value] else []) ++
          (if strictEqNum value MEDIA_STOPPED then
            (if media.hasSuccessCallback then [Event.successCb] else [])
          else []))
    else if strictEqNum msgType MEDIA_DURATION then
      (updateReg r id { media with _duration := value }, [])
    else if strictEqNum msgType MEDIA_ERROR then
      (r, if media.hasErrorCallback then [Event.errorCb value] else [])
    else if strictEqNum msgType MEDIA_POSITION then
      (updateReg r id { media with _position := jsToNumber value }, [])
    else
      (r, [Event.log ("Unhandled NSmedia.onStatus :: " ++ jsToString msgType)])
  | none =>
    (r, [Event.log ("Received NSmedia.onStatus callback for unknown media :: " ++ id)])

/-- Status dispatcher `NSmedia.onStatus` of the bridge-backed adapter
(`src/unnamed/part_000`, lines 163-193).  Identical to the browser variant
except that the STOPPED comparison uses loose equality `==`. -/
def onStatus_bridge (r : Registry) (id : String) (msgType value : JSValue) :
    Registry × List Event :=
  match lookupReg r id with
  | some media =>
    if strictEqNum msgType MEDIA_STATE then
      (r, (if media.hasStatusCallback then [Event.statusCb value] else []) ++
          (if looseEqNum value MEDIA_STOPPED then
            (if media.hasSuccessCallback then [Event.successCb] else [])
          else []))
    else if strictEqNum msgType MEDIA_DURATION then
      (updateReg r id { media with _duration := value }, [])
    else if strictEqNum msgType MEDIA_ERROR then
      (r, if media.hasErrorCallback then [Event.errorCb value] else [])
    else if strictEqNum msgType MEDIA_POSITION then
      (updateReg r id { media with _position := jsToNumber value }, [])
    else
      (r, [Event.log ("Unhandled NSmedia.onStatus :: " ++ jsToString msgType)])
  | none =>
    (r, [Event.log ("Received NSmedia.onStatus callback for unknown media :: " ++ id)])

/-- Node factory `createNode` of the browser adapter (`src/www/browser/NSmedia.js`,
lines 34-67): builds a fresh `Audio()` node and sets `node.src` when
`media.src` is truthy (a non-empty string).  The five event observers it
attaches are modelled separately as the `node*Fired` handler functions
below; a freshly created primitive has no pending faults. -/
def createNode (media : MediaSession) : AudioNode :=
  { src := if media.src = "" then none else some media.src
    currentTime := 0
    volume := 1
    playThrows := false
    pauseThrows := false
    setTimeThrows := false
    setVolumeThrows := false
    readTimeThrows := false }

/-- The `node.onerror` observer attached by `createNode` (lines 49-56):
a native error whose code is `MEDIA_ERR_SRC_NOT_SUPPORTED` is replaced by
`{ code: MEDIA_ERR_ABORTED }`; any other native error object is forwarded
unchanged to the dispatcher as a `MEDIA_ERROR` status. -/
def nodeErrorFired (r : Registry) (id : String) (errCode : ℤ) :
    Registry × List Event :=
  onStatus_browser r id (.num MEDIA_ERROR)
    (if errCode = MEDIA_ERR_SRC_NOT_SUPPORTED then .obj MEDIA_ERR_ABORTED
     else .obj errCode)

/-- The `node.onloadstart` observer (lines 37-39). -/
def nodeLoadstartFired (r : Registry) (id : String) : Registry × List Event :=
  onStatus_browser r id (.num MEDIA_STATE) (.num MEDIA_STARTING)

/-- The `node.onplaying` observer (lines 41-43). -/
def nodePlayingFired (r : Registry) (id : String) : Registry × List Event :=
  onStatus_browser r id (.num MEDIA_STATE) (.num MEDIA_RUNNING)

/-- The `node.ondurationchange` observer (lines 45-47): reports
`e.target.duration || -1`. -/
def nodeDurationchangeFired (r : Registry) (id : String) (d : ℚ) :
    Registry × List Event :=
  onStatus_browser r id (.num MEDIA_DURATION) (.num (if d = 0 then -1 else d))

/-- The `node.onended` observer (lines 58-60). -/
def nodeEndedFired (r : Registry) (id : String) : Registry × List Event :=
  onStatus_browser r id (.num MEDIA_STATE) (.num MEDIA_STOPPED)

/-- The `NSmedia` constructor of the browser adapter (lines 81-99), after
`argscheck` accepted the argument shapes: inserts the fresh session into
`mediaObjects` under its fresh id, emits a STARTING state status, then
creates the backing node (`createNode` is modelled as non-throwing, so the
surrounding catch is unreachable). -/
def NSmedia_new_browser (r : Registry) (id src : String)
    (hasSuccess hasError hasStatus : Bool) : Registry × List Event :=
  let m : MediaSession :=
    { src := src
      hasSuccessCallback := hasSuccess
      hasErrorCallback := hasError
      hasStatusCallback := hasStatus
      _duration := .num (-1)
      _position := .num (-1)
      node := none }
  let r1 := insertReg r id m
  (updateReg (onStatus_browser r1 id (.num MEDIA_STATE) (.num MEDIA_STARTING)).1 id
     { m with node := some (createNode m) },
   (onStatus_browser r1 id (.num MEDIA_STATE) (.num MEDIA_STARTING)).2)

/-- Operation `NSmedia.prototype.play` of the browser adapter (lines 118-130): if the
node was released it is recreated (that step alone is inside a try/catch);
the final `this.node.play()` call is OUTSIDE any try/catch, so a fault
thrown by the primitive's `play` propagates to the caller. -/
def play_browser (r : Registry) (id : String) :
    Except JSValue (Registry × List Event) :=
  match lookupReg r id with
  | none => Except.error (.str "TypeError")
  | some media =>
    match media.node with
    | some node =>
      if node.playThrows then Except.error (.str "playError")
      else Except.ok (r, [])
    | none =>
      let node := createNode media
      let r1 := updateReg r id { media with node := some node }
      if node.playThrows then Except.error (.str "playError")
      else Except.ok (r1, [])

/-- Operation `NSmedia.prototype.pause` (lines 159-165): `this.node.pause()` and the
PAUSED status are inside a try/catch whose handler dispatches a
`MEDIA_ERROR` status; a missing node makes the member access throw a
TypeError, which the catch also converts. -/
def pause_browser (r : Registry) (id : String) :
    Except JSValue (Registry × List Event) :=
  match lookupReg r id with
  | none => Except.error (.str "TypeError")
  | some media =>
    match media.node with
    | none => Except.ok (onStatus_browser r id (.num MEDIA_ERROR) (.str "TypeError"))
    | some node =>
      if node.pauseThrows then
        Except.ok (onStatus_browser r id (.num MEDIA_ERROR) (.str "pauseError"))
      else
        Except.ok (onStatus_browser r id (.num MEDIA_STATE) (.num MEDIA_PAUSED))

/-- Operation `NSmedia.prototype.seekTo` (lines 148-154): sets
`this.node.currentTime = milliseconds / 1000` inside a try/catch whose
handler dispatches a `MEDIA_ERROR` status. -/
def seekTo_browser (r : Registry) (id : String) (milliseconds : ℚ) :
    Except JSValue (Registry × List Event) :=
  match lookupReg r id with
  | none => Except.error (.str "TypeError")
  | some media =>
    match media.node with
    | none => Except.ok (onStatus_browser r id (.num MEDIA_ERROR) (.str "TypeError"))
    | some node =>
      if node.setTimeThrows then
        Except.ok (onStatus_browser r id (.num MEDIA_ERROR) (.str "seekError"))
      else
        Except.ok
          (updateReg r id
            { media with node := some { node with currentTime := milliseconds / 1000 } },
           [])

/-- Operation `NSmedia.prototype.stop` (lines 135-143): `pause()`, `seekTo(0)` and a
STOPPED status inside a try/catch whose handler dispatches a `MEDIA_ERROR`
status.  `pause` and `seekTo` catch their own primitive faults, so the
outer catch can only fire on the model-artifact unregistered branch. -/
def stop_browser (r : Registry) (id : String) :
    Except JSValue (Registry × List Event) :=
  match pause_browser r id with
  | Except.error err => Except.ok (onStatus_browser r id (.num MEDIA_ERROR) err)
  | Except.ok (r1, ev1) =>
    match seekTo_browser r1 id 0 with
    | Except.error err => Except.ok (onStatus_browser r1 id (.num MEDIA_ERROR) err)
    | Except.ok (r2, ev2) =>
      let (r3, ev3) := onStatus_browser r2 id (.num MEDIA_STATE) (.num MEDIA_STOPPED)
      Except.ok (r3, ev1 ++ ev2 ++ ev3)

/-- Operation `NSmedia.prototype.getDuration` (lines 173-175): synchronous read of
the cached `_duration`, no coercion. -/
def getDuration (media : MediaSession) : JSValue :=
  media._duration

/-- Operation `NSmedia.prototype.getCurrentPosition` (lines 180-188): reads
`this.node.currentTime`, dispatches it as a POSITION status, then calls the
`success` argument; any fault in the try block goes to the `fail` argument
(NOT through the dispatcher as an ERROR status). -/
def getCurrentPosition_browser (r : Registry) (id : String) :
    Except JSValue (Registry × List Event) :=
  match lookupReg r id with
  | none => Except.error (.str "TypeError")
  | some media =>
    match media.node with
    | none => Except.ok (r, [Event.failCb (.str "TypeError")])
    | some node =>
      if node.readTimeThrows then
        Except.ok (r, [Event.failCb (.str "currentTimeError")])
      else
        let (r1, ev1) := onStatus_browser r id (.num MEDIA_POSITION) (.num node.currentTime)
        Except.ok (r1, ev1 ++ [Event.posSuccessCb (.num node.currentTime)])

/-- Operation `NSmedia.prototype.startRecord` (lines 193-195): unconditionally reports
an ERROR "Not supported" through the dispatcher. -/
def startRecord_browser (r : Registry) (id : String) : Registry × List Event :=
  onStatus_browser r id (.num MEDIA_ERROR) (.str "Not supported")

/-- Operation `NSmedia.prototype.stopRecord` (lines 200-202). -/
def stopRecord_browser (r : Registry) (id : String) : Registry × List Event :=
  onStatus_browser r id (.num MEDIA_ERROR) (.str "Not supported")

/-- Operation `NSmedia.prototype.release` (lines 207-212): `delete this.node` (which
cannot throw here, so the catch is unreachable); the registry entry for the
id is untouched apart from losing its backing node. -/
def release_browser (r : Registry) (id : String) : Registry × List Event :=
  match lookupReg r id with
  | none => (r, [])
  | some media => (updateReg r id { media with node := none }, [])

/-- Operation `NSmedia.prototype.setVolume` (lines 217-219): assigns
`this.node.volume = volume` with NO try/catch — a fault thrown by the
primitive (or a missing node) propagates to the caller. -/
def setVolume_browser (r : Registry) (id : String) (volume : ℚ) :
    Except JSValue (Registry × List Event) :=
  match lookupReg r id with
  | none => Except.error (.str "TypeError")
  | some media =>
    match media.node with
    | none => Except.error (.str "TypeError")
    | some node =>
      if node.setVolumeThrows then Except.error (.str "volumeError")
      else
        Except.ok
          (updateReg r id { media with node := some { node with volume := volume } }, [])

/-! ### Registry lemmas -/

theorem lookupReg_updateReg_self (r : Registry) (id : String) (m : MediaSession) :
    lookupReg (updateReg r id m) id = (lookupReg r id).map (fun _ => m) := by
  induction r with
  | nil => rfl
  | cons p rest ih =>
    obtain ⟨k, m0⟩ := p
    by_cases hk : k = id <;> simp [lookupReg, updateReg, hk, ih]

theorem lookupReg_append_of_none (r1 r2 : Registry) (id : String)
    (h : lookupReg r1 id = none) :
    lookupReg (r1 ++ r2) id = lookupReg r2 id := by
  induction r1 with
  | nil => rfl
  | cons p rest ih =>
    obtain ⟨k, m0⟩ := p
    by_cases hk : k = id
    · simp [lookupReg, hk] at h
    · simp [lookupReg, hk] at h ⊢
      exact ih h

theorem lookupReg_insertReg_self (r : Registry) (id : String) (m : MediaSession) :
    lookupReg (insertReg r id m) id = some m := by
  unfold insertReg
  cases hl : lookupReg r id with
  | some m0 => simp [hl, lookupReg_updateReg_self]
  | none =>
    simp [hl, lookupReg_append_of_none r [(id, m)] id hl, lookupReg]

/-- Dispatching an ERROR status never changes the registry. -/
theorem onStatus_browser_error_fst (r : Registry) (id : String) (v : JSValue) :
    (onStatus_browser r id (.num MEDIA_ERROR) v).1 = r := by
  unfold onStatus_browser
  cases hl : lookupReg r id <;> simp [strictEqNum, MEDIA_STATE, MEDIA_DURATION, MEDIA_ERROR]

/-- Dispatching a STATE status never changes the registry. -/
theorem onStatus_browser_state_fst (r : Registry) (id : String) (v : JSValue) :
    (onStatus_browser r id (.num MEDIA_STATE) v).1 = r := by
  unfold onStatus_browser
  cases hl : lookupReg r id <;> simp [strictEqNum, MEDIA_STATE]

/-- Full equation of the browser dispatcher on an ERROR message for a
registered session. -/
theorem onStatus_browser_error_eq (r : Registry) (id : String) (m : MediaSession)
    (h : lookupReg r id = some m) (v : JSValue) :
    onStatus_browser r id (.num MEDIA_ERROR) v
      = (r, if m.hasErrorCallback then [Event.errorCb v] else []) := by
  unfold onStatus_browser
  rw [h]
  norm_num [strictEqNum, MEDIA_STATE, MEDIA_DURATION, MEDIA_ERROR]

/-- Full equation of the browser dispatcher on a STATE message for a
registered session. -/
theorem onStatus_browser_state_eq (r : Registry) (id : String) (m : MediaSession)
    (h : lookupReg r id = some m) (v : JSValue) :
    onStatus_browser r id (.num MEDIA_STATE) v
      = (r, (if m.hasStatusCallback then [Event.statusCb v] else []) ++
            (if strictEqNum v MEDIA_STOPPED then
              (if m.hasSuccessCallback then [Event.successCb] else [])
            else [])) := by
  unfold onStatus_browser
  rw [h]
  norm_num [strictEqNum, MEDIA_STATE]

/-! ### Concrete fixtures used by witnesses and counterexamples -/

def exNode : AudioNode :=
  { src := some "song.mp3"
    currentTime := 0
    volume := 1
    playThrows := false
    pauseThrows := false
    setTimeThrows := false
    setVolumeThrows := false
    readTimeThrows := false }

def exSession : MediaSession :=
  { src := "song.mp3"
    hasSuccessCallback := true
    hasErrorCallback := true
    hasStatusCallback := true
    _duration := .num (-1)
    _position := .num (-1)
    node := some exNode }

def exReg : Registry := [("m1", exSession)]

/-- A registry whose session's backing node faults on the volume setter. -/
def exBadReg : Registry :=
  [("m1", { exSession with node := some { exNode with setVolumeThrows := true } })]

/-! ### Claims -/

/-- C2: for every session id registered in the registry,
`dispatch(id, STATE, STOPPED)` invokes the session's status callback with
the STOPPED value and then the success callback with no arguments, in that
order, each only if it was provided at construction — on both dispatchers. -/
theorem C2_state_stopped_callbacks (r : Registry) (id : String) (m : MediaSession)
    (h : lookupReg r id = some m) :
    onStatus_browser r id (.num MEDIA_STATE) (.num MEDIA_STOPPED)
      = (r, (if m.hasStatusCallback then [Event.statusCb (.num MEDIA_STOPPED)] else []) ++
            (if m.hasSuccessCallback then [Event.successCb] else []))
    ∧ onStatus_bridge r id (.num MEDIA_STATE) (.num MEDIA_STOPPED)
      = (r, (if m.hasStatusCallback then [Event.statusCb (.num MEDIA_STOPPED)] else []) ++
            (if m.hasSuccessCallback then [Event.successCb] else [])) := by
  unfold onStatus_browser onStatus_bridge
  rw [h]
  norm_num [strictEqNum, looseEqNum, MEDIA_STATE, MEDIA_STOPPED]

theorem C2_state_stopped_callbacks_witness :
    lookupReg exReg "m1" = some exSession ∧
    (onStatus_browser exReg "m1" (.num MEDIA_STATE) (.num MEDIA_STOPPED)
      = (exReg, (if exSession.hasStatusCallback then
                    [Event.statusCb (.num MEDIA_STOPPED)] else []) ++
                (if exSession.hasSuccessCallback then [Event.successCb] else []))
    ∧ onStatus_bridge exReg "m1" (.num MEDIA_STATE) (.num MEDIA_STOPPED)
      = (exReg, (if exSession.hasStatusCallback then
                    [Event.statusCb (.num MEDIA_STOPPED)] else []) ++
                (if exSession.hasSuccessCallback then [Event.successCb] else []))) :=
  ⟨by decide, C2_state_stopped_callbacks exReg "m1" exSession (by decide)⟩

/-- C3: dispatching to an id absent from the registry does not throw,
invokes no callback, leaves the registry (hence every registered session's
fields) unchanged, and only emits a diagnostic — on both dispatchers. -/
theorem C3_unknown_id_noop (r : Registry) (id : String) (msgType value : JSValue)
    (h : lookupReg r id = none) :
    onStatus_browser r id msgType value
      = (r, [Event.log ("Received NSmedia.onStatus callback for unknown media :: " ++ id)])
    ∧ onStatus_bridge r id msgType value
      = (r, [Event.log ("Received NSmedia.onStatus callback for unknown media :: " ++ id)]) := by
  unfold onStatus_browser onStatus_bridge
  rw [h]
  exact ⟨rfl, rfl⟩

theorem C3_unknown_id_noop_witness :
    lookupReg exReg "ghost" = none ∧
    (onStatus_browser exReg "ghost" (.num MEDIA_STATE) (.num MEDIA_STOPPED)
      = (exReg, [Event.log ("Received NSmedia.onStatus callback for unknown media :: " ++ "ghost")])
    ∧ onStatus_bridge exReg "ghost" (.num MEDIA_STATE) (.num MEDIA_STOPPED)
      = (exReg, [Event.log ("Received NSmedia.onStatus callback for unknown media :: " ++ "ghost")])) :=
  ⟨by decide, C3_unknown_id_noop exReg "ghost" (.num MEDIA_STATE) (.num MEDIA_STOPPED) (by decide)⟩

/-- C1 counterexample: the two dispatchers are NOT extensionally equal.
On a registered session with a success callback, a STATE message carrying
a string loosely equal to 4 — `"4"`, and likewise the whitespace-padded
`" 4"`, the signed `"+4"` and the hexadecimal `"0x4"` forms `ToNumber`
accepts — makes the bridge dispatcher (loose `==`) fire the success
callback while the browser dispatcher (strict `===`) does not. -/
theorem C1_counterexample :
    onStatus_browser exReg "m1" (.num MEDIA_STATE) (.str "4")
      ≠ onStatus_bridge exReg "m1" (.num MEDIA_STATE) (.str "4")
    ∧ onStatus_browser exReg "m1" (.num MEDIA_STATE) (.str " 4")
      ≠ onStatus_bridge exReg "m1" (.num MEDIA_STATE) (.str " 4")
    ∧ onStatus_browser exReg "m1" (.num MEDIA_STATE) (.str "+4")
      ≠ onStatus_bridge exReg "m1" (.num MEDIA_STATE) (.str "+4")
    ∧ onStatus_browser exReg "m1" (.num MEDIA_STATE) (.str "0x4")
      ≠ onStatus_bridge exReg "m1" (.num MEDIA_STATE) (.str "0x4") := by
  exact ⟨by decide, by decide, by decide, by decide⟩

/-- C1 amended: the two dispatchers agree on every id, message type, value
and registry state for which loose and strict comparison of the value with
the STOPPED constant coincide — in particular on every numeric value and on
every message type other than STATE; they diverge only on a STATE message
whose value is a non-number loosely equal to 4. -/
theorem C1_dispatchers_agree (r : Registry) (id : String) (msgType value : JSValue)
    (h : looseEqNum value MEDIA_STOPPED = strictEqNum value MEDIA_STOPPED) :
    onStatus_bridge r id msgType value = onStatus_browser r id msgType value := by
  unfold onStatus_browser onStatus_bridge
  rw [h]

theorem C1_dispatchers_agree_witness :
    looseEqNum (.num 4) MEDIA_STOPPED = strictEqNum (.num 4) MEDIA_STOPPED ∧
    onStatus_bridge exReg "m1" (.num MEDIA_STATE) (.num 4)
      = onStatus_browser exReg "m1" (.num MEDIA_STATE) (.num 4) :=
  ⟨by decide, C1_dispatchers_agree exReg "m1" (.num MEDIA_STATE) (.num 4) (by decide)⟩

/-- C5: for every registered session, `dispatch(id, POSITION, "12.5")`
stores the number 12.5 (= 25/2) into the cached position — the string is
coerced with `Number` — and invokes no callback, on both dispatchers. -/
theorem C5_position_string_coercion (r : Registry) (id : String) (m : MediaSession)
    (h : lookupReg r id = some m) :
    onStatus_browser r id (.num MEDIA_POSITION) (.str "12.5")
      = (updateReg r id { m with _position := .num (25/2) }, [])
    ∧ onStatus_bridge r id (.num MEDIA_POSITION) (.str "12.5")
      = (updateReg r id { m with _position := .num (25/2) }, []) := by
  have hparse : parseDec "12.5"
      = some (((12 : ℕ) : ℚ) + ((5 : ℕ) : ℚ) / (10 : ℚ) ^ (1 : ℕ)) := rfl
  have harith : ((12 : ℕ) : ℚ) + ((5 : ℕ) : ℚ) / (10 : ℚ) ^ (1 : ℕ) = 25/2 := by
    norm_num
  have hnum : jsToNumber (.str "12.5") = .num (25/2) := by
    simp only [jsToNumber, hparse, harith]
  unfold onStatus_browser onStatus_bridge
  rw [h, hnum]
  norm_num [strictEqNum, MEDIA_STATE, MEDIA_DURATION, MEDIA_ERROR, MEDIA_POSITION]

theorem C5_position_string_coercion_witness :
    lookupReg exReg "m1" = some exSession ∧
    (onStatus_browser exReg "m1" (.num MEDIA_POSITION) (.str "12.5")
      = (updateReg exReg "m1" { exSession with _position := .num (25/2) }, [])
    ∧ onStatus_bridge exReg "m1" (.num MEDIA_POSITION) (.str "12.5")
      = (updateReg exReg "m1" { exSession with _position := .num (25/2) }, [])) :=
  ⟨by decide, C5_position_string_coercion exReg "m1" exSession (by decide)⟩

/-- C9: for every registered session and every message type outside
{STATE, DURATION, ERROR, POSITION} (under the switch's strict equality),
dispatch only emits a diagnostic: no callback events and an unchanged
registry, on both dispatchers. -/
theorem C9_unrecognized_type_noop (r : Registry) (id : String) (m : MediaSession)
    (h : lookupReg r id = some m) (msgType value : JSValue)
    (h1 : strictEqNum msgType MEDIA_STATE = false)
    (h2 : strictEqNum msgType MEDIA_DURATION = false)
    (h3 : strictEqNum msgType MEDIA_ERROR = false)
    (h4 : strictEqNum msgType MEDIA_POSITION = false) :
    onStatus_browser r id msgType value
      = (r, [Event.log ("Unhandled NSmedia.onStatus :: " ++ jsToString msgType)])
    ∧ onStatus_bridge r id msgType value
      = (r, [Event.log ("Unhandled NSmedia.onStatus :: " ++ jsToString msgType)]) := by
  unfold onStatus_browser onStatus_bridge
  rw [h, h1, h2, h3, h4]
  exact ⟨rfl, rfl⟩

theorem C9_unrecognized_type_noop_witness :
    lookupReg exReg "m1" = some exSession ∧
    strictEqNum (.num 7) MEDIA_STATE = false ∧
    strictEqNum (.num 7) MEDIA_DURATION = false ∧
    strictEqNum (.num 7) MEDIA_ERROR = false ∧
    strictEqNum (.num 7) MEDIA_POSITION = false ∧
    (onStatus_browser exReg "m1" (.num 7) (.str "x")
      = (exReg, [Event.log ("Unhandled NSmedia.onStatus :: " ++ jsToString (.num 7))])
    ∧ onStatus_bridge exReg "m1" (.num 7) (.str "x")
      = (exReg, [Event.log ("Unhandled NSmedia.onStatus :: " ++ jsToString (.num 7))])) :=
  ⟨by decide, by decide, by decide, by decide, by decide,
    C9_unrecognized_type_noop exReg "m1" exSession (by decide) (.num 7) (.str "x")
      (by decide) (by decide) (by decide) (by decide)⟩

/-- C10: the DURATION branch stores the dispatched value without numeric
coercion on both dispatchers — for the string `"42"` a subsequent
`getDuration()` returns the string itself, not the number 42 — while the
POSITION branch coerces `"42"` to the number 42. -/
theorem C10_duration_stored_uncoerced (r : Registry) (id : String) (m : MediaSession)
    (h : lookupReg r id = some m) :
    (∀ v : JSValue,
      onStatus_browser r id (.num MEDIA_DURATION) v
        = (updateReg r id { m with _duration := v }, [])
      ∧ onStatus_bridge r id (.num MEDIA_DURATION) v
        = (updateReg r id { m with _duration := v }, []))
    ∧ getDuration { m with _duration := .str "42" } = .str "42"
    ∧ JSValue.str "42" ≠ JSValue.num 42
    ∧ onStatus_browser r id (.num MEDIA_POSITION) (.str "42")
        = (updateReg r id { m with _position := .num 42 }, []) := by
  have hnum : jsToNumber (.str "42") = .num 42 := by rfl
  refine ⟨fun v => ?_, rfl, by decide, ?_⟩
  · unfold onStatus_browser onStatus_bridge
    rw [h]
    norm_num [strictEqNum, MEDIA_STATE, MEDIA_DURATION]
  · unfold onStatus_browser
    rw [h, hnum]
    norm_num [strictEqNum, MEDIA_STATE, MEDIA_DURATION, MEDIA_ERROR, MEDIA_POSITION]

theorem C10_duration_stored_uncoerced_witness :
    lookupReg exReg "m1" = some exSession ∧
    ((∀ v : JSValue,
      onStatus_browser exReg "m1" (.num MEDIA_DURATION) v
        = (updateReg exReg "m1" { exSession with _duration := v }, [])
      ∧ onStatus_bridge exReg "m1" (.num MEDIA_DURATION) v
        = (updateReg exReg "m1" { exSession with _duration := v }, []))
    ∧ getDuration { exSession with _duration := .str "42" } = .str "42"
    ∧ JSValue.str "42" ≠ JSValue.num 42
    ∧ onStatus_browser exReg "m1" (.num MEDIA_POSITION) (.str "42")
        = (updateReg exReg "m1" { exSession with _position := .num 42 }, [])) :=
  ⟨by decide, C10_duration_stored_uncoerced exReg "m1" exSession (by decide)⟩

/-- C7: when the native media error code is the "source not supported"
code, the error dispatched through the ERROR status is an object carrying
the generic aborted code (and the two codes differ, so the original code
never surfaces); every other error code is forwarded unchanged. -/
theorem C7_src_not_supported_remap (r : Registry) (id : String) (m : MediaSession)
    (h : lookupReg r id = some m) :
    nodeErrorFired r id MEDIA_ERR_SRC_NOT_SUPPORTED
      = (r, if m.hasErrorCallback then [Event.errorCb (.obj MEDIA_ERR_ABORTED)] else [])
    ∧ (∀ c : ℤ, c ≠ MEDIA_ERR_SRC_NOT_SUPPORTED →
        nodeErrorFired r id c
          = (r, if m.hasErrorCallback then [Event.errorCb (.obj c)] else []))
    ∧ MEDIA_ERR_ABORTED ≠ MEDIA_ERR_SRC_NOT_SUPPORTED := by
  refine ⟨?_, fun c hc => ?_, by decide⟩
  · unfold nodeErrorFired
    rw [if_pos rfl]
    exact onStatus_browser_error_eq r id m h _
  · unfold nodeErrorFired
    rw [if_neg hc]
    exact onStatus_browser_error_eq r id m h _

theorem C7_src_not_supported_remap_witness :
    lookupReg exReg "m1" = some exSession ∧
    (nodeErrorFired exReg "m1" MEDIA_ERR_SRC_NOT_SUPPORTED
      = (exReg, if exSession.hasErrorCallback then
                  [Event.errorCb (.obj MEDIA_ERR_ABORTED)] else [])
    ∧ (∀ c : ℤ, c ≠ MEDIA_ERR_SRC_NOT_SUPPORTED →
        nodeErrorFired exReg "m1" c
          = (exReg, if exSession.hasErrorCallback then [Event.errorCb (.obj c)] else []))
    ∧ MEDIA_ERR_ABORTED ≠ MEDIA_ERR_SRC_NOT_SUPPORTED) :=
  ⟨by decide, C7_src_not_supported_remap exReg "m1" exSession (by decide)⟩

/-- C8: for every registered session, `release()` removes only the backing
node — the registry entry survives — and a subsequent `play()` recreates a
fresh backing node and succeeds rather than failing. -/
theorem C8_release_then_play (r : Registry) (id : String) (m : MediaSession)
    (h : lookupReg r id = some m) :
    lookupReg (release_browser r id).1 id = some { m with node := none }
    ∧ play_browser (release_browser r id).1 id
      = Except.ok
          (updateReg (release_browser r id).1 id
            { m with node := some (createNode { m with node := none }) }, []) := by
  have hrel : (release_browser r id).1 = updateReg r id { m with node := none } := by
    unfold release_browser
    rw [h]
  have hlk : lookupReg (updateReg r id { m with node := none }) id
      = some { m with node := none } := by
    rw [lookupReg_updateReg_self, h]
    rfl
  refine ⟨by rw [hrel]; exact hlk, ?_⟩
  rw [hrel]
  unfold play_browser
  rw [hlk]
  simp [createNode]

theorem C8_release_then_play_witness :
    lookupReg exReg "m1" = some exSession ∧
    (lookupReg (release_browser exReg "m1").1 "m1" = some { exSession with node := none }
    ∧ play_browser (release_browser exReg "m1").1 "m1"
      = Except.ok
          (updateReg (release_browser exReg "m1").1 "m1"
            { exSession with node := some (createNode { exSession with node := none }) },
           [])) :=
  ⟨by decide, C8_release_then_play exReg "m1" exSession (by decide)⟩

/-- C6: for every registered session, dispatching `(DURATION, 42)` makes a
subsequent `getDuration()` return 42 (on both dispatchers), and a freshly
constructed session's `getDuration()` returns -1 (the constructor
sets the cached duration to -1 at construction). -/
theorem C6_duration_cached (r : Registry) (id : String) (m : MediaSession)
    (h : lookupReg r id = some m)
    (r0 : Registry) (id0 src : String) (hs he hst : Bool) :
    lookupReg (onStatus_browser r id (.num MEDIA_DURATION) (.num 42)).1 id
      = some { m with _duration := .num 42 }
    ∧ getDuration { m with _duration := .num 42 } = .num 42
    ∧ lookupReg (onStatus_bridge r id (.num MEDIA_DURATION) (.num 42)).1 id
      = some { m with _duration := .num 42 }
    ∧ (∀ m0, lookupReg (NSmedia_new_browser r0 id0 src hs he hst).1 id0 = some m0 →
        getDuration m0 = .num (-1))
    ∧ (∃ m0, lookupReg (NSmedia_new_browser r0 id0 src hs he hst).1 id0 = some m0) := by
  have hb : onStatus_browser r id (.num MEDIA_DURATION) (.num 42)
      = (updateReg r id { m with _duration := .num 42 }, []) := by
    unfold onStatus_browser
    rw [h]
    norm_num [strictEqNum, MEDIA_STATE, MEDIA_DURATION]
  have hbr : onStatus_bridge r id (.num MEDIA_DURATION) (.num 42)
      = (updateReg r id { m with _duration := .num 42 }, []) := by
    unfold onStatus_bridge
    rw [h]
    norm_num [strictEqNum, MEDIA_STATE, MEDIA_DURATION]
  have hlk : lookupReg (updateReg r id { m with _duration := .num 42 }) id
      = some { m with _duration := .num 42 } := by
    rw [lookupReg_updateReg_self, h]
    rfl
  have hnew : lookupReg (NSmedia_new_browser r0 id0 src hs he hst).1 id0
      = some { src := src
               hasSuccessCallback := hs
               hasErrorCallback := he
               hasStatusCallback := hst
               _duration := .num (-1)
               _position := .num (-1)
               node := some (createNode
                 { src := src
                   hasSuccessCallback := hs
                   hasErrorCallback := he
                   hasStatusCallback := hst
                   _duration := .num (-1)
                   _position := .num (-1)
                   node := none }) } := by
    unfold NSmedia_new_browser
    dsimp only
    rw [onStatus_browser_state_fst, lookupReg_updateReg_self, lookupReg_insertReg_self]
    rfl
  refine ⟨by rw [hb]; exact hlk, rfl, by rw [hbr]; exact hlk, fun m0 hm0 => ?_, ⟨_, hnew⟩⟩
  rw [hnew] at hm0
  cases hm0
  rfl

theorem C6_duration_cached_witness :
    lookupReg exReg "m1" = some exSession ∧
    (lookupReg (onStatus_browser exReg "m1" (.num MEDIA_DURATION) (.num 42)).1 "m1"
      = some { exSession with _duration := .num 42 }
    ∧ getDuration { exSession with _duration := .num 42 } = .num 42
    ∧ lookupReg (onStatus_bridge exReg "m1" (.num MEDIA_DURATION) (.num 42)).1 "m1"
      = some { exSession with _duration := .num 42 }
    ∧ (∀ m0, lookupReg (NSmedia_new_browser [] "m2" "b.mp3" true true true).1 "m2" = some m0 →
        getDuration m0 = .num (-1))
    ∧ (∃ m0, lookupReg (NSmedia_new_browser [] "m2" "b.mp3" true true true).1 "m2" = some m0)) :=
  ⟨by decide, C6_duration_cached exReg "m1" exSession (by decide) [] "m2" "b.mp3" true true true⟩

/-- Operation `pause` never propagates for a registered session, and its result
registry is unchanged. -/
theorem pause_browser_ok (r : Registry) (id : String) (m : MediaSession)
    (h : lookupReg r id = some m) :
    ∃ ev, pause_browser r id = Except.ok (r, ev) := by
  unfold pause_browser
  rw [h]
  dsimp only
  cases hn : m.node with
  | none =>
    dsimp only
    rw [onStatus_browser_error_eq r id m h]
    exact ⟨_, rfl⟩
  | some node =>
    dsimp only
    cases hp : node.pauseThrows with
    | true =>
      rw [if_pos rfl, onStatus_browser_error_eq r id m h]
      exact ⟨_, rfl⟩
    | false =>
      rw [if_neg Bool.false_ne_true, onStatus_browser_state_eq r id m h]
      exact ⟨_, rfl⟩

/-- Operation `seekTo` never propagates for a registered session. -/
theorem seekTo_browser_ok (r : Registry) (id : String) (m : MediaSession)
    (h : lookupReg r id = some m) (ms : ℚ) :
    ∃ out, seekTo_browser r id ms = Except.ok out := by
  unfold seekTo_browser
  rw [h]
  dsimp only
  cases hn : m.node with
  | none => exact ⟨_, rfl⟩
  | some node =>
    dsimp only
    cases hs : node.setTimeThrows with
    | true => exact ⟨_, by rw [if_pos rfl]⟩
    | false => exact ⟨_, by rw [if_neg Bool.false_ne_true]⟩

/-- Operation `getCurrentPosition` never propagates for a registered session. -/
theorem getCurrentPosition_browser_ok (r : Registry) (id : String) (m : MediaSession)
    (h : lookupReg r id = some m) :
    ∃ out, getCurrentPosition_browser r id = Except.ok out := by
  unfold getCurrentPosition_browser
  rw [h]
  dsimp only
  cases hn : m.node with
  | none => exact ⟨_, rfl⟩
  | some node =>
    dsimp only
    cases ht : node.readTimeThrows with
    | true => exact ⟨_, by rw [if_pos rfl]⟩
    | false => exact ⟨_, by rw [if_neg Bool.false_ne_true]⟩

/-- Operation `stop` never propagates for a registered session. -/
theorem stop_browser_ok (r : Registry) (id : String) (m : MediaSession)
    (h : lookupReg r id = some m) :
    ∃ out, stop_browser r id = Except.ok out := by
  obtain ⟨ev1, h1⟩ := pause_browser_ok r id m h
  obtain ⟨out2, h2⟩ := seekTo_browser_ok r id m h 0
  unfold stop_browser
  rw [h1]
  dsimp only
  rw [h2]
  exact ⟨_, rfl⟩

/-- C4 counterexample: on the direct-backed adapter, `setVolume` touches
the backing primitive with no try/catch at all — when the primitive's
volume setter throws, the fault propagates to the caller instead of being
converted into an ERROR status. -/
theorem C4_counterexample :
    setVolume_browser exBadReg "m1" 1 = Except.error (.str "volumeError") := by
  rfl

/-- C4 amended: `pause`, `stop` and `seekTo` convert any fault thrown by
the backing primitive into an ERROR status through the dispatcher and never
propagate it; `getCurrentPosition` never propagates either but routes the
fault to its `fail` argument rather than through the dispatcher; `play`
wraps only the node re-creation step, and `setVolume` is not wrapped at
all, so primitive faults from `node.play()` and from the volume setter
propagate to the caller. -/
theorem C4_fault_containment (r : Registry) (id : String) (m : MediaSession)
    (h : lookupReg r id = some m) :
    (∃ ev, pause_browser r id = Except.ok (r, ev))
    ∧ (∃ out, stop_browser r id = Except.ok out)
    ∧ (∀ ms : ℚ, ∃ out, seekTo_browser r id ms = Except.ok out)
    ∧ (∃ out, getCurrentPosition_browser r id = Except.ok out)
    ∧ (∀ node, m.node = some node → node.pauseThrows = true →
        pause_browser r id
          = Except.ok (r, if m.hasErrorCallback then
              [Event.errorCb (.str "pauseError")] else []))
    ∧ (∀ node, m.node = some node → node.setTimeThrows = true → ∀ ms : ℚ,
        seekTo_browser r id ms
          = Except.ok (r, if m.hasErrorCallback then
              [Event.errorCb (.str "seekError")] else []))
    ∧ (∀ node, m.node = some node → node.readTimeThrows = true →
        getCurrentPosition_browser r id
          = Except.ok (r, [Event.failCb (.str "currentTimeError")]))
    ∧ (∀ node, m.node = some node → node.playThrows = true →
        play_browser r id = Except.error (.str "playError"))
    ∧ (∀ node, m.node = some node → node.setVolumeThrows = true → ∀ vol : ℚ,
        setVolume_browser r id vol = Except.error (.str "volumeError")) := by
  refine ⟨pause_browser_ok r id m h, stop_browser_ok r id m h,
    seekTo_browser_ok r id m h, getCurrentPosition_browser_ok r id m h,
    fun node hn hp => ?_, fun node hn hs ms => ?_, fun node hn ht => ?_,
    fun node hn hp => ?_, fun node hn hv vol => ?_⟩
  · unfold pause_browser
    rw [h]
    dsimp only
    rw [hn]
    dsimp only
    rw [hp, if_pos rfl, onStatus_browser_error_eq r id m h]
  · unfold seekTo_browser
    rw [h]
    dsimp only
    rw [hn]
    dsimp only
    rw [hs, if_pos rfl, onStatus_browser_error_eq r id m h]
  · unfold getCurrentPosition_browser
    rw [h]
    dsimp only
    rw [hn]
    dsimp only
    rw [ht, if_pos rfl]
  · unfold play_browser
    rw [h]
    dsimp only
    rw [hn]
    dsimp only
    rw [hp, if_pos rfl]
  · unfold setVolume_browser
    rw [h]
    dsimp only
    rw [hn]
    dsimp only
    rw [hv, if_pos rfl]

theorem C4_fault_containment_witness :
    lookupReg exReg "m1" = some exSession ∧
    ((∃ ev, pause_browser exReg "m1" = Except.ok (exReg, ev))
    ∧ (∃ out, stop_browser exReg "m1" = Except.ok out)
    ∧ (∀ ms : ℚ, ∃ out, seekTo_browser exReg "m1" ms = Except.ok out)
    ∧ (∃ out, getCurrentPosition_browser exReg "m1" = Except.ok out)
    ∧ (∀ node, exSession.node = some node → node.pauseThrows = true →
        pause_browser exReg "m1"
          = Except.ok (exReg, if exSession.hasErrorCallback then
              [Event.errorCb (.str "pauseError")] else []))
    ∧ (∀ node, exSession.node = some node → node.setTimeThrows = true → ∀ ms : ℚ,
        seekTo_browser exReg "m1" ms
          = Except.ok (exReg, if exSession.hasErrorCallback then
              [Event.errorCb (.str "seekError")] else []))
    ∧ (∀ node, exSession.node = some node → node.readTimeThrows = true →
        getCurrentPosition_browser exReg "m1"
          = Except.ok (exReg, [Event.failCb (.str "currentTimeError")]))
    ∧ (∀ node, exSession.node = some node → node.playThrows = true →
        play_browser exReg "m1" = Except.error (.str "playError"))
    ∧ (∀ node, exSession.node = some node → node.setVolumeThrows = true → ∀ vol : ℚ,
        setVolume_browser exReg "m1" vol = Except.error (.str "volumeError"))) :=
  ⟨by decide, C4_fault_containment exReg "m1" exSession (by decide)⟩

end NSM
